import Mathlib

/-!
Verification development for the go-cpms OCPP central system.

The definitions below are a shallow embedding of the repository's Go source:

* `models.*`            — the structs of internal/db/models (model.go);
* `SaveChargePoint`, `GetChargePoint`, `StartTransaction`, `StopTransaction`,
  `GetTransaction`, `LogOCPPMessage` — the PostgresStore operations of
  internal/db (postgres.go), with the SQL upsert/update semantics spelled
  out over an in-memory table (a list of rows keyed by the primary key);
* `handleNewChargePoint`, `OnBootNotification`, `OnMeterValues`,
  `OnStartTransaction`, `OnStopTransaction` — the connection handler and the
  inbound OCPP handlers of internal/ocpp/central_system.go.  Wall-clock
  times are `Nat` parameters (`now`), and the outcome of a fallible store
  write is an explicit `writeOk : Bool` parameter, mirroring the Go code's
  `if err := ...; err != nil { log }` treatment of persistence failures;
* `generateTransactionID` and the `race` namespace — the global
  transaction-id counter of central_system.go, both its sequential meaning
  and the two-atomic-step (read, then write-back) semantics of the
  non-atomic `lastTransactionID++` under concurrent interleaving;
* `parseFloat64` — the fmt.Sscanf "%f" helper of central_system.go: skip
  leading blanks, read a leading float token (sign, digits, optional
  fraction, optional exponent), ignore trailing input, fail when no number
  can be read.  Values are represented exactly as rationals; no arithmetic
  is ever performed on them by the code, they are only stored;
* `logMessage` / `LogOCPPMessage` — the audit path of internal/ocpp/logger.go
  and the ocpp_messages insert: `logMessage` stores the JSON text of the
  message in the string field `Payload`, and `LogOCPPMessage` then applies
  `json.Marshal` to that *string*, modelled by `goMarshalString` (Go's JSON
  encoding of a string value: quote it and escape `"`, `\`, control
  characters, `<`, `>`, `&`, U+2028 and U+2029);
* `ResetChargePoint` — the Command Dispatcher's reset path of
  internal/service (cpms.go); the connected-device check itself lives in the
  external ocpp-go transport library and is modelled from the spec
  (`transportReset`).
-/

namespace models

/-- Embeds models.ChargePoint (internal/db/models). Timestamps are Nat;
the Go zero time is 0. -/
structure ChargePoint where
  ID : String
  Vendor : String
  Model : String
  SerialNumber : String
  FirmwareVersion : String
  LastHeartbeat : Nat
  RegistrationStatus : String
  ConnectedSince : Nat
  IsConnected : Bool
  CreatedAt : Nat
  UpdatedAt : Nat
deriving Repr, DecidableEq

/-- Embeds models.Transaction (internal/db/models). `EndTime`/`MeterStop`
are the Go struct's plain fields (zero-valued while the row's SQL columns
are NULL). -/
structure Transaction where
  ID : Int
  ChargePointID : String
  ConnectorID : Int
  IdTag : String
  StartTime : Nat
  EndTime : Nat
  MeterStart : Int
  MeterStop : Int
  Status : String
  CreatedAt : Nat
  UpdatedAt : Nat
deriving Repr, DecidableEq

/-- Embeds models.MeterValue (internal/db/models); the db-assigned serial
`ID` and `CreatedAt` are omitted (never produced by the handlers). -/
structure MeterValue where
  TransactionID : Int
  ChargePointID : String
  ConnectorID : Int
  Timestamp : Nat
  Value : Rat
  Unit : String
  Measurand : String
deriving Repr, DecidableEq

/-- Embeds models.OCPPMessage (internal/db/models): the audit record built
by the logger; `Payload` is the JSON text as a Go string. -/
structure OCPPMessage where
  ChargePointID : String
  MessageType : String
  Action : String
  RequestID : String
  Payload : String
  Direction : String
  Timestamp : Nat
deriving Repr, DecidableEq

end models

namespace types

/-- Embeds core.BootNotificationRequest (the fields read by the handler). -/
structure BootNotificationRequest where
  ChargePointVendor : String
  ChargePointModel : String
  ChargePointSerialNumber : String
  FirmwareVersion : String
deriving Repr, DecidableEq

/-- Embeds core.BootNotificationConfirmation as built by
core.NewBootNotificationConfirmation(currentTime, interval, status). -/
structure BootNotificationConfirmation where
  CurrentTime : Nat
  Interval : Nat
  Status : String
deriving Repr, DecidableEq

/-- Embeds types.SampledValue (the fields read by the handler); Go's empty
string is the absent value for the optional Measurand/Unit. -/
structure SampledValue where
  Value : String
  Measurand : String
  Unit : String
deriving Repr, DecidableEq

/-- Embeds types.MeterValue: one timestamped set of sampled values. -/
structure MeterValue where
  Timestamp : Nat
  SampledValue : List SampledValue
deriving Repr, DecidableEq

/-- Embeds core.MeterValuesRequest; TransactionId is the optional pointer
field (*int). -/
structure MeterValuesRequest where
  ConnectorId : Int
  TransactionId : Option Int
  MeterValue : List types.MeterValue
deriving Repr, DecidableEq

/-- Embeds core.MeterValuesConfirmation (empty payload). -/
structure MeterValuesConfirmation where
deriving Repr, DecidableEq

/-- Embeds core.StartTransactionRequest (the fields read by the handler). -/
structure StartTransactionRequest where
  ConnectorId : Int
  IdTag : String
  MeterStart : Int
  Timestamp : Nat
deriving Repr, DecidableEq

/-- Embeds core.StartTransactionConfirmation as built by
core.NewStartTransactionConfirmation(idTagInfo, transactionId). -/
structure StartTransactionConfirmation where
  IdTagInfoStatus : String
  TransactionId : Int
deriving Repr, DecidableEq

/-- Embeds core.StopTransactionRequest (the fields read by the handler). -/
structure StopTransactionRequest where
  TransactionId : Int
  Timestamp : Nat
  MeterStop : Int
  TransactionData : List types.MeterValue
deriving Repr, DecidableEq

/-- Embeds core.StopTransactionConfirmation (no payload is set by the
handler). -/
structure StopTransactionConfirmation where
deriving Repr, DecidableEq

/-- Embeds core.ResetConfirmation (the Status field read by the callback). -/
structure ResetConfirmation where
  Status : String
deriving Repr, DecidableEq

end types

/-- The charge_points table: a list of rows; id is the primary key. -/
abbrev ChargePointTable := List models.ChargePoint

/-- Embeds the Go prologue of PostgresStore.SaveChargePoint: `cp.CreatedAt`
is set to now when zero and `cp.UpdatedAt` is always set to now before the
SQL statement runs. -/
def withTimestamps (cp : models.ChargePoint) (now : Nat) : models.ChargePoint :=
  { cp with
    CreatedAt := if cp.CreatedAt = 0 then now else cp.CreatedAt,
    UpdatedAt := now }

/-- Embeds the ON CONFLICT (id) DO UPDATE SET clause of SaveChargePoint:
every identity field is overwritten from the incoming record, and
connected_since is kept unless the stored row was disconnected and the
incoming record is connected (the SQL CASE). created_at is not touched. -/
def upsertRow (row : models.ChargePoint) (cp : models.ChargePoint) : models.ChargePoint :=
  { row with
    Vendor := cp.Vendor,
    Model := cp.Model,
    SerialNumber := cp.SerialNumber,
    FirmwareVersion := cp.FirmwareVersion,
    LastHeartbeat := cp.LastHeartbeat,
    RegistrationStatus := cp.RegistrationStatus,
    ConnectedSince :=
      if row.IsConnected = false ∧ cp.IsConnected = true then cp.ConnectedSince
      else row.ConnectedSince,
    IsConnected := cp.IsConnected,
    UpdatedAt := cp.UpdatedAt }

/-- Embeds PostgresStore.SaveChargePoint (internal/db): INSERT the row, or
on a primary-key conflict apply the DO UPDATE SET clause to the stored
row. -/
def SaveChargePoint (db : ChargePointTable) (cp0 : models.ChargePoint) (now : Nat) :
    ChargePointTable :=
  let cp := withTimestamps cp0 now
  if db.any (fun row => row.ID == cp.ID) then
    db.map (fun row => if row.ID == cp.ID then upsertRow row cp else row)
  else
    db ++ [cp]

/-- Embeds PostgresStore.GetChargePoint: SELECT by primary key. -/
def GetChargePoint (db : ChargePointTable) (id : String) : Option models.ChargePoint :=
  db.find? (fun row => row.ID == id)

/-- Embeds the record construction of CentralSystem.handleNewChargePoint
(internal/ocpp): the handler reads the charge point, and on any read error
(the Go code checks only `err != nil`, so a timeout and a missing row take
the same branch, modelled by `readFails` or an absent row) builds the
minimal Unknown/Pending record, otherwise marks the read record
connected. -/
def handleNewChargePointRecord (db : ChargePointTable) (cpId : String) (readFails : Bool)
    (now : Nat) : models.ChargePoint :=
  match (if readFails then none else GetChargePoint db cpId) with
  | none =>
      { ID := cpId
        Vendor := "Unknown"
        Model := "Unknown"
        SerialNumber := ""
        FirmwareVersion := ""
        LastHeartbeat := 0
        RegistrationStatus := "Pending"
        ConnectedSince := now
        IsConnected := true
        CreatedAt := 0
        UpdatedAt := 0 }
  | some cp => { cp with IsConnected := true, ConnectedSince := now }

/-- Embeds CentralSystem.handleNewChargePoint (internal/ocpp): on a new
transport connection, build the record and SaveChargePoint it (a failed
save is only logged and leaves the table unchanged). -/
def handleNewChargePoint (db : ChargePointTable) (cpId : String) (readFails : Bool)
    (now : Nat) : ChargePointTable :=
  SaveChargePoint db (handleNewChargePointRecord db cpId readFails now) now

/-- Embeds CentralSystemHandler.OnBootNotification (internal/ocpp): build
the full identity record with Accepted status, save it (a failed write is
only logged, modelled by `writeOk = false` leaving the table unchanged),
and return the confirmation and a nil error in every case. -/
def OnBootNotification (db : ChargePointTable) (chargePointID : String)
    (request : types.BootNotificationRequest) (heartbeatInterval : Nat)
    (writeOk : Bool) (now : Nat) :
    ChargePointTable × types.BootNotificationConfirmation × Option String :=
  let chargePoint : models.ChargePoint :=
    { ID := chargePointID
      Vendor := request.ChargePointVendor
      Model := request.ChargePointModel
      SerialNumber := request.ChargePointSerialNumber
      FirmwareVersion := request.FirmwareVersion
      LastHeartbeat := now
      RegistrationStatus := "Accepted"
      ConnectedSince := now
      IsConnected := true
      CreatedAt := 0
      UpdatedAt := 0 }
  let db' := if writeOk then SaveChargePoint db chargePoint now else db
  (db', { CurrentTime := now, Interval := heartbeatInterval, Status := "Accepted" }, none)

/-- One row of the transactions table: end_time and meter_stop are nullable
columns, absent until the transaction is stopped. -/
structure TransactionRow where
  ID : Int
  ChargePointID : String
  ConnectorID : Int
  IdTag : String
  StartTime : Nat
  EndTime : Option Nat
  MeterStart : Int
  MeterStop : Option Int
  Status : String
  CreatedAt : Nat
  UpdatedAt : Nat
deriving Repr, DecidableEq

/-- The transactions table: a list of rows; id is the primary key. -/
abbrev TransactionTable := List TransactionRow

/-- Embeds PostgresStore.StartTransaction: a plain INSERT (no ON CONFLICT),
so a duplicate primary key fails; end_time and meter_stop are not in the
column list and stay NULL. -/
def StartTransaction (db : TransactionTable) (tx : models.Transaction) (now : Nat) :
    Except String TransactionTable :=
  if db.any (fun row => row.ID == tx.ID) then
    Except.error "duplicate key value violates unique constraint"
  else
    Except.ok (db ++
      [{ ID := tx.ID
         ChargePointID := tx.ChargePointID
         ConnectorID := tx.ConnectorID
         IdTag := tx.IdTag
         StartTime := tx.StartTime
         EndTime := none
         MeterStart := tx.MeterStart
         MeterStop := none
         Status := tx.Status
         CreatedAt := if tx.CreatedAt = 0 then now else tx.CreatedAt
         UpdatedAt := now }])

/-- Embeds PostgresStore.StopTransaction: UPDATE transactions SET
end_time, meter_stop, status = Completed, updated_at WHERE id matches.
No row is ever inserted by this statement. -/
def StopTransaction (db : TransactionTable) (id : Int) (endTime : Nat) (meterStop : Int)
    (now : Nat) : TransactionTable :=
  db.map (fun row =>
    if row.ID == id then
      { row with EndTime := some endTime, MeterStop := some meterStop,
                 Status := "Completed", UpdatedAt := now }
    else row)

/-- Embeds PostgresStore.GetTransaction: SELECT by id, scanning the
nullable end_time/meter_stop through sql.NullTime/sql.NullInt32 — a NULL
leaves the Go struct field at its zero value. -/
def GetTransaction (db : TransactionTable) (id : Int) : Option models.Transaction :=
  (db.find? (fun row => row.ID == id)).map (fun row =>
    { ID := row.ID
      ChargePointID := row.ChargePointID
      ConnectorID := row.ConnectorID
      IdTag := row.IdTag
      StartTime := row.StartTime
      EndTime := row.EndTime.getD 0
      MeterStart := row.MeterStart
      MeterStop := row.MeterStop.getD 0
      Status := row.Status
      CreatedAt := row.CreatedAt
      UpdatedAt := row.UpdatedAt })

/-- Embeds generateTransactionID (internal/ocpp/central_system.go) as run
in isolation: `lastTransactionID++; return lastTransactionID` maps the
counter value to the new counter value and the returned id (both the old
value plus one).  The package initialises the counter to 1000. -/
def generateTransactionID (lastTransactionID : Int) : Int × Int :=
  (lastTransactionID + 1, lastTransactionID + 1)

namespace race

/-- Progress of one in-flight generateTransactionID call.  Go's
`lastTransactionID++` is not atomic: the call first reads the shared
counter, then writes back the incremented value and returns it, and the
two halves of different calls may interleave since no lock or atomic is
used. -/
inductive CallPhase
  | start
  | readDone (v : Int)
  | done (r : Int)
deriving Repr, DecidableEq

/-- Shared counter plus the phase of each in-flight call. -/
structure RaceState where
  lastTransactionID : Int
  calls : List CallPhase
deriving Repr, DecidableEq

/-- One scheduler step: call `t` runs its next atomic piece of
`lastTransactionID++; return lastTransactionID` (first the read of the
shared counter, then the write-back and return). -/
def step (s : RaceState) (t : Nat) : RaceState :=
  match s.calls.get? t with
  | some CallPhase.start =>
      { s with calls := s.calls.set t (CallPhase.readDone s.lastTransactionID) }
  | some (CallPhase.readDone v) =>
      { lastTransactionID := v + 1, calls := s.calls.set t (CallPhase.done (v + 1)) }
  | _ => s

/-- Run a whole schedule of interleaved steps. -/
def run (s : RaceState) (sched : List Nat) : RaceState :=
  sched.foldl step s

end race

/-- Character is an ASCII decimal digit. -/
def isDigitChar (c : Char) : Bool :=
  '0' ≤ c ∧ c ≤ '9'

/-- Numeric value of a list of decimal digits. -/
def digitsToNat (ds : List Char) : Nat :=
  ds.foldl (fun acc c => acc * 10 + (c.toNat - '0'.toNat)) 0

/-- Embeds parseFloat64 (central_system.go), i.e. fmt.Sscanf(s, "%f"):
skip leading blanks, then greedily read a float token — optional sign,
integer digits, optional fraction, optional exponent — and convert it;
trailing input is ignored by Sscanf, and the scan fails when no digits can
be read (or an exponent marker has no digits).  The exact value is kept as
a rational. -/
def parseFloat64 (s : String) : Option Rat :=
  let cs := s.data.dropWhile (fun c => c = ' ' ∨ c = '\t')
  let (neg, cs) :=
    match cs with
    | '-' :: rest => (true, rest)
    | '+' :: rest => (false, rest)
    | rest => (false, rest)
  let intDigits := cs.takeWhile isDigitChar
  let cs := cs.dropWhile isDigitChar
  let (fracDigits, cs) :=
    match cs with
    | '.' :: rest => (rest.takeWhile isDigitChar, rest.dropWhile isDigitChar)
    | rest => ([], rest)
  if intDigits.isEmpty ∧ fracDigits.isEmpty then none
  else
    let mantissa : Rat :=
      (digitsToNat intDigits : Rat) +
        (digitsToNat fracDigits : Rat) / ((10 : Rat) ^ fracDigits.length)
    let signed : Rat := if neg then -mantissa else mantissa
    match cs with
    | 'e' :: rest => parseExponent signed rest
    | 'E' :: rest => parseExponent signed rest
    | _ => some signed
where
  /-- Exponent part of the float token: optional sign then digits; a bare
  marker with no digits makes the whole Sscanf fail (strconv.ParseFloat
  rejects the accumulated token). -/
  parseExponent (mantissa : Rat) (cs : List Char) : Option Rat :=
    let (eneg, cs) :=
      match cs with
      | '-' :: rest => (true, rest)
      | '+' :: rest => (false, rest)
      | rest => (false, rest)
    let expDigits := cs.takeWhile isDigitChar
    if expDigits.isEmpty then none
    else
      let e := digitsToNat expDigits
      some (if eneg then mantissa / ((10 : Rat) ^ e) else mantissa * ((10 : Rat) ^ e))

/-- Embeds the loop body of CentralSystemHandler.OnMeterValues
(internal/ocpp): the Go default-then-override assignments for measurand
and unit, the failed-parse-means-0.0 treatment of the value, and the row
construction with the optional transaction id (Go zero value 0 when the
pointer is nil). -/
def meterValueRow (chargePointID : String) (request : types.MeterValuesRequest)
    (meterValue : types.MeterValue) (sampledValue : types.SampledValue) :
    models.MeterValue :=
  let measurand :=
    if sampledValue.Measurand ≠ "" then sampledValue.Measurand
    else "Energy.Active.Import.Register"
  let unit :=
    if sampledValue.Unit ≠ "" then sampledValue.Unit
    else "Wh"
  let value : Rat :=
    match parseFloat64 sampledValue.Value with
    | some v => v
    | none => 0
  { TransactionID :=
      match request.TransactionId with
      | some t => t
      | none => 0
    ChargePointID := chargePointID
    ConnectorID := request.ConnectorId
    Timestamp := meterValue.Timestamp
    Value := value
    Unit := unit
    Measurand := measurand }

/-- Embeds CentralSystemHandler.OnMeterValues (internal/ocpp): the nested
loops over request.MeterValue and its SampledValue lists append one row
per sample, and the handler returns the unconditional empty confirmation
with a nil error.  The first component is the list of rows handed to
SaveMeterValue, in loop order; a failed SaveMeterValue is only logged and
stops neither the loop nor the confirmation, so the submitted rows and the
returned values do not depend on any write outcome. -/
def OnMeterValues (chargePointID : String) (request : types.MeterValuesRequest) :
    List models.MeterValue × types.MeterValuesConfirmation × Option String :=
  let rows := request.MeterValue.foldl (fun acc meterValue =>
    meterValue.SampledValue.foldl (fun acc sampledValue =>
      acc ++ [meterValueRow chargePointID request meterValue sampledValue]) acc) []
  (rows, {}, none)

/-- Embeds CentralSystemHandler.OnStartTransaction (internal/ocpp):
allocate the id from the shared counter, build the InProgress transaction,
attempt the insert (failure is only logged; `writeOk = false` models a
store failure such as a timeout), and return the confirmation carrying the
new id and an Accepted idTagInfo with a nil error in every case.  Returns
(new table, new counter value, confirmation, error). -/
def OnStartTransaction (txdb : TransactionTable) (chargePointID : String)
    (request : types.StartTransactionRequest) (lastTransactionID : Int)
    (writeOk : Bool) (now : Nat) :
    TransactionTable × Int × types.StartTransactionConfirmation × Option String :=
  let gen := generateTransactionID lastTransactionID
  let transaction : models.Transaction :=
    { ID := gen.2
      ChargePointID := chargePointID
      ConnectorID := request.ConnectorId
      IdTag := request.IdTag
      StartTime := request.Timestamp
      EndTime := 0
      MeterStart := request.MeterStart
      MeterStop := 0
      Status := "InProgress"
      CreatedAt := 0
      UpdatedAt := 0 }
  let txdb' :=
    if writeOk then
      match StartTransaction txdb transaction now with
      | Except.ok db' => db'
      | Except.error _ => txdb
    else txdb
  (txdb', gen.1, { IdTagInfoStatus := "Accepted", TransactionId := transaction.ID }, none)

/-- Embeds the loop body OnStopTransaction repeats for each sample of each
TransactionData entry: the same defaults as OnMeterValues, the transaction
id from the request and connector id 0 (the Go comment notes the connector
id is unknown in this path). -/
def stopTransactionRow (chargePointID : String) (request : types.StopTransactionRequest)
    (meterValue : types.MeterValue) (sampledValue : types.SampledValue) :
    models.MeterValue :=
  let measurand :=
    if sampledValue.Measurand ≠ "" then sampledValue.Measurand
    else "Energy.Active.Import.Register"
  let unit :=
    if sampledValue.Unit ≠ "" then sampledValue.Unit
    else "Wh"
  let value : Rat :=
    match parseFloat64 sampledValue.Value with
    | some v => v
    | none => 0
  { TransactionID := request.TransactionId
    ChargePointID := chargePointID
    ConnectorID := 0
    Timestamp := meterValue.Timestamp
    Value := value
    Unit := unit
    Measurand := measurand }

/-- Embeds CentralSystemHandler.OnStopTransaction (internal/ocpp): update
the transaction to Completed (a failed update is only logged, modelled by
`writeOk = false`), then run the same per-sample loop as OnMeterValues
over request.TransactionData with the connector id hard-coded to 0 and the
transaction id taken from the request, and return the empty confirmation
with a nil error in every case.  Returns (new table, submitted meter rows,
confirmation, error). -/
def OnStopTransaction (txdb : TransactionTable) (chargePointID : String)
    (request : types.StopTransactionRequest) (writeOk : Bool) (now : Nat) :
    TransactionTable × List models.MeterValue × types.StopTransactionConfirmation ×
      Option String :=
  let txdb' :=
    if writeOk then StopTransaction txdb request.TransactionId request.Timestamp request.MeterStop now
    else txdb
  let rows := request.TransactionData.foldl (fun acc meterValue =>
    meterValue.SampledValue.foldl (fun acc sampledValue =>
      acc ++ [stopTransactionRow chargePointID request meterValue sampledValue]) acc) []
  (txdb', rows, {}, none)

/-- Lowercase hexadecimal digit, as used by Go's JSON string encoder. -/
def hexDigitChar (n : Nat) : Char :=
  if n < 10 then Char.ofNat ('0'.toNat + n) else Char.ofNat ('a'.toNat + n - 10)

/-- Embeds Go json.Marshal's per-character escaping inside a string value:
quote and backslash are backslash-escaped, newline, carriage return and
tab use their letter escapes, other control characters become a numeric
escape, the HTML characters are numerically escaped by default, as are
U+2028 and U+2029; every other character is written as itself. -/
def goEscapeChar (c : Char) : List Char :=
  if c = '"' then ['\\', '"']
  else if c = '\\' then ['\\', '\\']
  else if c = '\n' then ['\\', 'n']
  else if c = '\r' then ['\\', 'r']
  else if c = '\t' then ['\\', 't']
  else if c = '<' then ['\\', 'u', '0', '0', '3', 'c']
  else if c = '>' then ['\\', 'u', '0', '0', '3', 'e']
  else if c = '&' then ['\\', 'u', '0', '0', '2', '6']
  else if c.toNat < 32 then
    ['\\', 'u', '0', '0', hexDigitChar (c.toNat / 16), hexDigitChar (c.toNat % 16)]
  else if c = '\u2028' then ['\\', 'u', '2', '0', '2', '8']
  else if c = '\u2029' then ['\\', 'u', '2', '0', '2', '9']
  else [c]

/-- Embeds Go json.Marshal applied to a string value: the escaped text
wrapped in double quotes. -/
def goMarshalString (s : String) : String :=
  String.mk ('"' :: (s.data.flatMap goEscapeChar ++ ['"']))

/-- Value of one hexadecimal digit character. -/
def hexCharVal (c : Char) : Option Nat :=
  if '0' ≤ c ∧ c ≤ '9' then some (c.toNat - '0'.toNat)
  else if 'a' ≤ c ∧ c ≤ 'f' then some (c.toNat - 'a'.toNat + 10)
  else if 'A' ≤ c ∧ c ≤ 'F' then some (c.toNat - 'A'.toNat + 10)
  else none

/-- Value of a four-hex-digit escape body. -/
def hexQuad (h1 h2 h3 h4 : Char) : Option Nat :=
  match hexCharVal h1, hexCharVal h2, hexCharVal h3, hexCharVal h4 with
  | some a, some b, some c, some d => some (((a * 16 + b) * 16 + c) * 16 + d)
  | _, _, _, _ => none

/-- Decoder for the body of a JSON string literal: consume characters and
escape sequences until the closing quote, which must end the input. -/
def goUnquoteList (cs : List Char) : Option (List Char) :=
  match cs with
  | [] => none
  | c :: rest =>
    if c = '"' then
      if rest = [] then some [] else none
    else if c = '\\' then
      match rest with
      | [] => none
      | d :: rest' =>
        if d = '"' then (goUnquoteList rest').map ('"' :: ·)
        else if d = '\\' then (goUnquoteList rest').map ('\\' :: ·)
        else if d = 'n' then (goUnquoteList rest').map ('\n' :: ·)
        else if d = 'r' then (goUnquoteList rest').map ('\r' :: ·)
        else if d = 't' then (goUnquoteList rest').map ('\t' :: ·)
        else if d = 'u' then
          match rest' with
          | h1 :: h2 :: h3 :: h4 :: rest'' =>
            match hexQuad h1 h2 h3 h4 with
            | some n => (goUnquoteList rest'').map (Char.ofNat n :: ·)
            | none => none
          | _ => none
        else none
    else (goUnquoteList rest).map (c :: ·)

/-- Decode a whole JSON string literal back to the string it encodes. -/
def goUnmarshalString (s : String) : Option String :=
  match s.data with
  | '"' :: rest => (goUnquoteList rest).map String.mk
  | _ => none

/-- Embeds OCPPLogger.logMessage (internal/ocpp/logger.go): the message's
payload is JSON-marshaled once into a string (`payloadJSON` stands for the
result of that first json.Marshal of the request or confirmation value)
and stored in the string field Payload of the audit record. -/
def logMessage (chargePointID messageType action requestID : String)
    (payloadJSON : String) (direction : String) (now : Nat) : models.OCPPMessage :=
  { ChargePointID := chargePointID
    MessageType := messageType
    Action := action
    RequestID := requestID
    Payload := payloadJSON
    Direction := direction
    Timestamp := now }

/-- One row of the ocpp_messages table. -/
structure OCPPMessageRow where
  ChargePointID : String
  MessageType : String
  Action : String
  RequestID : String
  Payload : String
  Direction : String
  Timestamp : Nat
deriving Repr, DecidableEq

/-- Embeds PostgresStore.LogOCPPMessage (internal/db): the INSERT into
ocpp_messages applies json.Marshal to msg.Payload — which is already a
string — so the stored payload column receives the JSON string-literal
encoding of that string. -/
def LogOCPPMessage (msg : models.OCPPMessage) : OCPPMessageRow :=
  { ChargePointID := msg.ChargePointID
    MessageType := msg.MessageType
    Action := msg.Action
    RequestID := msg.RequestID
    Payload := goMarshalString msg.Payload
    Direction := msg.Direction
    Timestamp := msg.Timestamp }

/-- Modelled from the spec: the outbound call primitive of the external
ocpp-go transport library (not part of src/), as described in sections 4.2
and 6 of the specification — it fails synchronously, without sending
anything on the wire or ever invoking the continuation, when the target
device is not in the connected-devices directory; otherwise the call
returns immediately and the continuation fires exactly once with either
the parsed confirmation or a transport/timeout error (`deviceOutcome`).
The result list is the sequence of continuation invocations. -/
def transportReset (connectedIDs : List String) (chargePointID : String)
    (deviceOutcome : Except String types.ResetConfirmation) :
    Except String (List (Except String types.ResetConfirmation)) :=
  if connectedIDs.contains chargePointID then Except.ok [deviceOutcome]
  else Except.error "charge point not connected"

/-- Embeds CPMS.ResetChargePoint (internal/service): map the textual reset
type onto the OCPP enum, rejecting anything but Hard and Soft
synchronously, then issue the transport call whose error (if any) is
returned synchronously to the caller. -/
def ResetChargePoint (connectedIDs : List String) (chargePointID : String)
    (resetType : String) (deviceOutcome : Except String types.ResetConfirmation) :
    Except String (List (Except String types.ResetConfirmation)) :=
  if resetType = "Hard" ∨ resetType = "Soft" then
    transportReset connectedIDs chargePointID deviceOutcome
  else
    Except.error ("invalid reset type: " ++ resetType)

/-- Follows the spec's words for one persisted MeterValue row: measurand
defaults to Energy.Active.Import.Register when absent, unit defaults to Wh
when absent, the value is 0.0 when the sample's value string is not
parsable, and the transaction association is the request's optional id (0
when absent, matching the Go zero value).  Compared against the rows the
OnMeterValues loop actually submits. -/
def specMeterRow (chargePointID : String) (request : types.MeterValuesRequest)
    (meterValue : types.MeterValue) (sampledValue : types.SampledValue) :
    models.MeterValue :=
  { TransactionID :=
      match request.TransactionId with
      | some t => t
      | none => 0
    ChargePointID := chargePointID
    ConnectorID := request.ConnectorId
    Timestamp := meterValue.Timestamp
    Value :=
      match parseFloat64 sampledValue.Value with
      | some v => v
      | none => 0
    Unit := if sampledValue.Unit = "" then "Wh" else sampledValue.Unit
    Measurand :=
      if sampledValue.Measurand = "" then "Energy.Active.Import.Register"
      else sampledValue.Measurand }

/-- Concrete table state after a first Connect of CP-1 at time 5 on an
empty store (used by witnesses). -/
def db1demo : ChargePointTable := handleNewChargePoint [] "CP-1" false 5

/-- The record stored for CP-1 after that first Connect. -/
def cp1demo : models.ChargePoint :=
  { ID := "CP-1"
    Vendor := "Unknown"
    Model := "Unknown"
    SerialNumber := ""
    FirmwareVersion := ""
    LastHeartbeat := 0
    RegistrationStatus := "Pending"
    ConnectedSince := 5
    IsConnected := true
    CreatedAt := 5
    UpdatedAt := 5 }

/-- Concrete BootNotification request (used by witnesses). -/
def bootReqDemo : types.BootNotificationRequest :=
  { ChargePointVendor := "Acme"
    ChargePointModel := "X1"
    ChargePointSerialNumber := "SN-1"
    FirmwareVersion := "1.0" }

/-- Concrete transactions table holding one InProgress transaction with id
7 (used by witnesses). -/
def txdbDemo : TransactionTable :=
  [{ ID := 7
     ChargePointID := "CP-1"
     ConnectorID := 1
     IdTag := "TAG1"
     StartTime := 3
     EndTime := none
     MeterStart := 100
     MeterStop := none
     Status := "InProgress"
     CreatedAt := 3
     UpdatedAt := 3 }]

/-- The model value GetTransaction returns for id 7 of `txdbDemo`. -/
def txDemo : models.Transaction :=
  { ID := 7
    ChargePointID := "CP-1"
    ConnectorID := 1
    IdTag := "TAG1"
    StartTime := 3
    EndTime := 0
    MeterStart := 100
    MeterStop := 0
    Status := "InProgress"
    CreatedAt := 3
    UpdatedAt := 3 }

/-- Concrete StopTransaction request for transaction 7 (used by
witnesses). -/
def stopReqDemo : types.StopTransactionRequest :=
  { TransactionId := 7, Timestamp := 9, MeterStop := 500, TransactionData := [] }

/-- A second StopTransaction request for the same transaction id. -/
def stopReqDemo2 : types.StopTransactionRequest :=
  { TransactionId := 7, Timestamp := 10, MeterStop := 600, TransactionData := [] }

/-- Concrete MeterValues request without a transaction id and with one
non-numeric sample (used by witnesses). -/
def mvReqDemo : types.MeterValuesRequest :=
  { ConnectorId := 1
    TransactionId := none
    MeterValue := [{ Timestamp := 4, SampledValue := [{ Value := "abc", Measurand := "", Unit := "" }] }] }

/-- Concrete already-registered charge point record (used by witnesses). -/
def cpAcme : models.ChargePoint :=
  { ID := "CP-1"
    Vendor := "Acme"
    Model := "X1"
    SerialNumber := "SN-1"
    FirmwareVersion := "1.0"
    LastHeartbeat := 2
    RegistrationStatus := "Accepted"
    ConnectedSince := 1
    IsConnected := false
    CreatedAt := 1
    UpdatedAt := 2 }

/-- Table holding just `cpAcme` (used by witnesses). -/
def dbAcme : ChargePointTable := [cpAcme]

section ListHelpers

variable {α : Type} {β : Type}

/-- Helper: find? is none exactly when no element satisfies the predicate. -/
theorem find?_eq_none_iff_any (p : α → Bool) (l : List α) :
    l.find? p = none ↔ l.any p = false := by
  induction l with
  | nil => simp
  | cons a t ih =>
    by_cases h : p a = true
    · simp [List.find?_cons_of_pos _ h, h]
    · simp [List.find?_cons_of_neg _ (by simpa using h), h, ih, Bool.eq_false_iff.mpr h]

/-- Helper: updating the matching elements in place commutes with find?
when the update preserves the predicate. -/
theorem find?_map_if (p : α → Bool) (g : α → α) (hg : ∀ a, p (g a) = p a) (l : List α) :
    (l.map fun a => if p a then g a else a).find? p = (l.find? p).map g := by
  induction l with
  | nil => rfl
  | cons a t ih =>
    by_cases h : p a = true
    · rw [List.map_cons, if_pos h, List.find?_cons_of_pos _ ((hg a).trans h),
          List.find?_cons_of_pos _ h]
      rfl
    · rw [List.map_cons, if_neg h, List.find?_cons_of_neg _ (by simpa using h),
          List.find?_cons_of_neg _ (by simpa using h), ih]

/-- Helper: updating the matching elements in place does not change the
image of any key the update preserves. -/
theorem map_key_map_if (p : α → Bool) (g : α → α) (k : α → β) (hk : ∀ a, k (g a) = k a)
    (l : List α) :
    (l.map fun a => if p a then g a else a).map k = l.map k := by
  induction l with
  | nil => rfl
  | cons a t ih =>
    by_cases h : p a = true <;> simp [h, hk, ih]

/-- Helper: find? skips a prefix in which nothing matches. -/
theorem find?_append_left_none (p : α → Bool) (l₁ l₂ : List α) (h : l₁.find? p = none) :
    (l₁ ++ l₂).find? p = l₂.find? p := by
  induction l₁ with
  | nil => rfl
  | cons a t ih =>
    by_cases hpa : p a = true
    · rw [List.find?_cons_of_pos _ hpa] at h; cases h
    · rw [List.find?_cons_of_neg _ (by simpa using hpa)] at h
      rw [List.cons_append, List.find?_cons_of_neg _ (by simpa using hpa)]
      exact ih h

/-- Helper: a fold that appends one image per element is a map. -/
theorem foldl_concat_map (f : α → β) (l : List α) (acc : List β) :
    l.foldl (fun acc a => acc ++ [f a]) acc = acc ++ l.map f := by
  induction l generalizing acc with
  | nil => simp
  | cons a t ih => simp [ih]

/-- Helper: a fold that appends one list per element is a flatMap. -/
theorem foldl_concat_flat (g : α → List β) (l : List α) (acc : List β) :
    l.foldl (fun acc a => acc ++ g a) acc = acc ++ l.flatMap g := by
  induction l generalizing acc with
  | nil => simp
  | cons a t ih => simp [ih]

end ListHelpers

/-- Helper: a record found by GetChargePoint carries the id it was looked
up by. -/
theorem getChargePoint_some_ID (db : ChargePointTable) (id : String)
    (cp : models.ChargePoint) (h : GetChargePoint db id = some cp) : cp.ID = id := by
  have h' : db.find? (fun row => row.ID == id) = some cp := h
  have hb := List.find?_some h'
  exact eq_of_beq hb

/-- Helper: what GetChargePoint returns right after a SaveChargePoint of
the same id — the timestamped record when the id was absent, the stored
row merged through the DO UPDATE SET clause when it was present. -/
theorem getChargePoint_saveChargePoint (db : ChargePointTable) (cp0 : models.ChargePoint)
    (now : Nat) (id : String) (hid : cp0.ID = id) :
    GetChargePoint (SaveChargePoint db cp0 now) id =
      some ((GetChargePoint db id).elim (withTimestamps cp0 now)
        (fun row => upsertRow row (withTimestamps cp0 now))) := by
  subst hid
  have hW : (withTimestamps cp0 now).ID = cp0.ID := rfl
  simp only [SaveChargePoint, GetChargePoint, hW]
  by_cases h : db.any (fun row => row.ID == cp0.ID) = true
  · rw [if_pos h,
        find?_map_if (fun row => row.ID == cp0.ID)
          (fun row => upsertRow row (withTimestamps cp0 now)) (fun a => rfl) db]
    rcases hf : db.find? (fun row => row.ID == cp0.ID) with _ | row
    · rw [find?_eq_none_iff_any] at hf
      rw [hf] at h
      cases h
    · rw [hf]
      rfl
  · have hf : db.find? (fun row => row.ID == cp0.ID) = none :=
      (find?_eq_none_iff_any _ db).mpr (Bool.eq_false_iff.mpr h)
    rw [if_neg h, find?_append_left_none _ _ _ hf,
        List.find?_cons_of_pos _ (by simp [hW]), hf]
    rfl

/-- Helper: the record handleNewChargePoint builds always carries the
connecting device's id. -/
theorem handleNewChargePointRecord_ID (db : ChargePointTable) (cpId : String)
    (readFails : Bool) (now : Nat) :
    (handleNewChargePointRecord db cpId readFails now).ID = cpId := by
  unfold handleNewChargePointRecord
  cases readFails with
  | true => rfl
  | false =>
    rcases hr : GetChargePoint db cpId with _ | cp
    · rfl
    · show cp.ID = cpId
      exact getChargePoint_some_ID db cpId cp hr

/-- Helper: the record handleNewChargePoint builds is always marked
connected. -/
theorem handleNewChargePointRecord_IsConnected (db : ChargePointTable) (cpId : String)
    (readFails : Bool) (now : Nat) :
    (handleNewChargePointRecord db cpId readFails now).IsConnected = true := by
  unfold handleNewChargePointRecord
  cases readFails with
  | true => rfl
  | false =>
    rcases hr : GetChargePoint db cpId with _ | cp
    · rfl
    · rfl

/-- Helper: saving any record over a stored row that is currently
connected leaves the stored connectedSince unchanged — the SQL CASE only
lets it advance on a false-to-true transition. -/
theorem save_preserves_connectedSince (db : ChargePointTable) (cp0 old : models.ChargePoint)
    (now : Nat) (id : String) (hid : cp0.ID = id)
    (hfound : GetChargePoint db id = some old) (hconn : old.IsConnected = true) :
    (GetChargePoint (SaveChargePoint db cp0 now) id).map (fun row => row.ConnectedSince) =
      some old.ConnectedSince := by
  rw [getChargePoint_saveChargePoint db cp0 now id hid, hfound]
  simp [upsertRow, hconn]

/-- Helper: whatever record is stored under the device id right after a
Connect is marked connected. -/
theorem handleNew_found_isConnected (db : ChargePointTable) (cpId : String)
    (readFails : Bool) (t : Nat) (cp1 : models.ChargePoint)
    (h : GetChargePoint (handleNewChargePoint db cpId readFails t) cpId = some cp1) :
    cp1.IsConnected = true := by
  unfold handleNewChargePoint at h
  rw [getChargePoint_saveChargePoint db _ t cpId
        (handleNewChargePointRecord_ID db cpId readFails t)] at h
  rcases hg : GetChargePoint db cpId with _ | row <;> rw [hg] at h <;>
    injection h with h' <;> rw [← h']
  · show (withTimestamps (handleNewChargePointRecord db cpId readFails t) t).IsConnected = true
    show (handleNewChargePointRecord db cpId readFails t).IsConnected = true
    exact handleNewChargePointRecord_IsConnected db cpId readFails t
  · show (upsertRow row (withTimestamps (handleNewChargePointRecord db cpId readFails t) t)).IsConnected = true
    show (handleNewChargePointRecord db cpId readFails t).IsConnected = true
    exact handleNewChargePointRecord_IsConnected db cpId readFails t

/-- Helper: a Connect for a device whose stored record is already
connected leaves the stored connectedSince unchanged. -/
theorem handleNew_preserves_connectedSince (db : ChargePointTable) (cpId : String)
    (readFails : Bool) (t : Nat) (cp1 : models.ChargePoint)
    (hfound : GetChargePoint db cpId = some cp1) (hconn : cp1.IsConnected = true) :
    (GetChargePoint (handleNewChargePoint db cpId readFails t) cpId).map
      (fun row => row.ConnectedSince) = some cp1.ConnectedSince := by
  unfold handleNewChargePoint
  exact save_preserves_connectedSince db _ cp1 t cpId
    (handleNewChargePointRecord_ID db cpId readFails t) hfound hconn

/-- Helper: the Go loop body builds exactly the row the spec describes. -/
theorem meterValueRow_eq_spec (chargePointID : String) (request : types.MeterValuesRequest)
    (meterValue : types.MeterValue) (sampledValue : types.SampledValue) :
    meterValueRow chargePointID request meterValue sampledValue =
      specMeterRow chargePointID request meterValue sampledValue := by
  by_cases hm : sampledValue.Measurand = "" <;> by_cases hu : sampledValue.Unit = "" <;>
    simp [meterValueRow, specMeterRow, hm, hu]

/-- Helper: the nested loops of OnMeterValues submit exactly the
one-row-per-sample list described by the spec. -/
theorem onMeterValues_rows (chargePointID : String) (request : types.MeterValuesRequest) :
    (OnMeterValues chargePointID request).1 =
      request.MeterValue.flatMap (fun meterValue =>
        meterValue.SampledValue.map (specMeterRow chargePointID request meterValue)) := by
  show request.MeterValue.foldl _ [] = _
  simp only [foldl_concat_map, foldl_concat_flat, List.nil_append,
    meterValueRow_eq_spec]

/-- Helper: the hexadecimal digit emitted by the encoder decodes back to
its value. -/
theorem hexCharVal_hexDigitChar (n : Nat) (h : n < 16) :
    hexCharVal (hexDigitChar n) = some n := by
  interval_cases n <;> rfl

/-- Helper: the four-digit body written for a control character decodes
back to its code point. -/
theorem hexQuad_escape (q r : Nat) (hq : q < 16) (hr : r < 16) :
    hexQuad '0' '0' (hexDigitChar q) (hexDigitChar r) = some (q * 16 + r) := by
  unfold hexQuad
  rw [hexCharVal_hexDigitChar q hq, hexCharVal_hexDigitChar r hr]
  show some (((0 * 16 + 0) * 16 + q) * 16 + r) = some (q * 16 + r)
  norm_num

/-- Helper: decoding a numeric escape prepends the encoded character. -/
theorem goUnquote_u_escape (q r : Nat) (hq : q < 16) (hr : r < 16) (rest : List Char) :
    goUnquoteList ('\\' :: 'u' :: '0' :: '0' :: hexDigitChar q :: hexDigitChar r :: rest) =
      (goUnquoteList rest).map (Char.ofNat (q * 16 + r) :: ·) := by
  show (match hexQuad '0' '0' (hexDigitChar q) (hexDigitChar r) with
        | some n => (goUnquoteList rest).map (Char.ofNat n :: ·)
        | none => none) =
      (goUnquoteList rest).map (Char.ofNat (q * 16 + r) :: ·)
  rw [hexQuad_escape q r hq hr]

/-- Helper: decoding the escape the encoder wrote for any character
prepends that character. -/
theorem goUnquote_goEscape (c : Char) (rest : List Char) :
    goUnquoteList (goEscapeChar c ++ rest) = (goUnquoteList rest).map (c :: ·) := by
  by_cases h1 : c = '"'
  · subst h1
    conv_lhs => rw [goUnquoteList.eq_def]
    rfl
  by_cases h2 : c = '\\'
  · subst h2
    conv_lhs => rw [goUnquoteList.eq_def]
    rfl
  by_cases h3 : c = '\n'
  · subst h3
    conv_lhs => rw [goUnquoteList.eq_def]
    rfl
  by_cases h4 : c = '\r'
  · subst h4
    conv_lhs => rw [goUnquoteList.eq_def]
    rfl
  by_cases h5 : c = '\t'
  · subst h5
    conv_lhs => rw [goUnquoteList.eq_def]
    rfl
  by_cases h6 : c = '<'
  · subst h6; rfl
  by_cases h7 : c = '>'
  · subst h7; rfl
  by_cases h8 : c = '&'
  · subst h8; rfl
  by_cases hlt : c.toNat < 32
  · have hesc : goEscapeChar c =
        ['\\', 'u', '0', '0', hexDigitChar (c.toNat / 16), hexDigitChar (c.toNat % 16)] := by
      unfold goEscapeChar
      rw [if_neg h1, if_neg h2, if_neg h3, if_neg h4, if_neg h5, if_neg h6, if_neg h7,
          if_neg h8, if_pos hlt]
    rw [hesc]
    show goUnquoteList
        ('\\' :: 'u' :: '0' :: '0' :: hexDigitChar (c.toNat / 16) :: hexDigitChar (c.toNat % 16) :: rest) =
      (goUnquoteList rest).map (c :: ·)
    rw [goUnquote_u_escape _ _ (by omega) (by omega) rest]
    have harith : c.toNat / 16 * 16 + c.toNat % 16 = c.toNat := by omega
    rw [harith, Char.ofNat_toNat]
  by_cases h9 : c = ' '
  · subst h9; rfl
  by_cases h10 : c = ' '
  · subst h10; rfl
  have hesc : goEscapeChar c = [c] := by
    unfold goEscapeChar
    rw [if_neg h1, if_neg h2, if_neg h3, if_neg h4, if_neg h5, if_neg h6, if_neg h7,
        if_neg h8, if_neg hlt, if_neg h9, if_neg h10]
  rw [hesc]
  show goUnquoteList (c :: rest) = (goUnquoteList rest).map (c :: ·)
  conv_lhs => rw [goUnquoteList.eq_def]
  show (if c = '"' then _ else _) = _
  rw [if_neg h1]
  show (if c = '\\' then _ else _) = _
  rw [if_neg h2]

/-- Helper: decoding the escaped body followed by the closing quote
recovers the original character list. -/
theorem goUnquote_marshal_body (cs : List Char) :
    goUnquoteList (cs.flatMap goEscapeChar ++ ['"']) = some cs := by
  induction cs with
  | nil =>
    show goUnquoteList ['"'] = some []
    conv_lhs => rw [goUnquoteList.eq_def]
    rfl
  | cons c cs ih =>
    rw [List.flatMap_cons, List.append_assoc, goUnquote_goEscape, ih]
    rfl

/-- Helper: decoding the JSON string literal Go writes for a string
recovers the string verbatim. -/
theorem goUnmarshal_goMarshal (s : String) :
    goUnmarshalString (goMarshalString s) = some s := by
  show (goUnquoteList (s.data.flatMap goEscapeChar ++ ['"'])).map String.mk = some s
  rw [goUnquote_marshal_body]
  rfl

/-- Claim C1 (code_bug evidence): StartTransaction ids are claimed unique
and strictly increasing even under concurrent calls, but
generateTransactionID increments the shared package variable without any
lock or atomic.  Sequentially the counter does return 1001 after 1000, yet
under the interleaving read(call 0), read(call 1), write(call 0),
write(call 1) of the two halves of `lastTransactionID++`, both concurrent
calls return the same id 1001 — a duplicate, contradicting the claim. -/
theorem generateTransactionID_concurrent_duplicate :
    (generateTransactionID 1000).2 = 1001 ∧
    (race.run { lastTransactionID := 1000,
                calls := [race.CallPhase.start, race.CallPhase.start] }
        [0, 1, 0, 1]).calls =
      [race.CallPhase.done 1001, race.CallPhase.done 1001] :=
  ⟨rfl, by decide⟩

/-- Claim C2: connectedSince changes only on an isConnected
false-to-true transition — a second Connect without an intervening
Disconnect leaves the stored connectedSince unchanged, and a
BootNotification arriving while the device's stored record is already
connected does not overwrite connectedSince. -/
theorem connectedSince_only_advances_on_reconnect
    (db : ChargePointTable) (cpId : String) (rf1 rf2 : Bool) (t1 t2 : Nat)
    (req : types.BootNotificationRequest) (hb now : Nat)
    (cp1 cp : models.ChargePoint) :
    (GetChargePoint (handleNewChargePoint db cpId rf1 t1) cpId = some cp1 →
      (GetChargePoint (handleNewChargePoint (handleNewChargePoint db cpId rf1 t1) cpId rf2 t2)
          cpId).map (fun row => row.ConnectedSince) = some cp1.ConnectedSince)
    ∧ (GetChargePoint db cpId = some cp → cp.IsConnected = true →
      (GetChargePoint (OnBootNotification db cpId req hb true now).1 cpId).map
        (fun row => row.ConnectedSince) = some cp.ConnectedSince) := by
  constructor
  · intro h1
    exact handleNew_preserves_connectedSince _ cpId rf2 t2 cp1 h1
      (handleNew_found_isConnected db cpId rf1 t1 cp1 h1)
  · intro hf hc
    exact save_preserves_connectedSince db _ cp now cpId rfl hf hc

/-- Witness for claim C2 at concrete inputs: connecting CP-1 twice (at
times 5 and 9) leaves connectedSince at 5, and a BootNotification to the
connected record also leaves it at 5. -/
theorem connectedSince_only_advances_on_reconnect_witness :
    (GetChargePoint db1demo "CP-1" = some cp1demo) ∧
    ((GetChargePoint (handleNewChargePoint db1demo "CP-1" false 9) "CP-1").map
        (fun row => row.ConnectedSince) = some 5) ∧
    (cp1demo.IsConnected = true) ∧
    ((GetChargePoint (OnBootNotification db1demo "CP-1" bootReqDemo 30 true 11).1 "CP-1").map
        (fun row => row.ConnectedSince) = some 5) :=
  ⟨by decide,
   (connectedSince_only_advances_on_reconnect [] "CP-1" false false 5 9 bootReqDemo 30 11
      cp1demo cp1demo).1 (by decide),
   by decide,
   (connectedSince_only_advances_on_reconnect db1demo "CP-1" false false 5 9 bootReqDemo 30 11
      cp1demo cp1demo).2 (by decide) (by decide)⟩

/-- Claim C3: every inbound handler returns its confirmation and a nil
error regardless of the State Store write outcome — the confirmation and
error components do not depend on writeOk, and the error is always none
(for the cited OnBootNotification and OnStartTransaction, plus the other
mutating handlers). -/
theorem handlers_confirm_despite_store_failure
    (db : ChargePointTable) (txdb : TransactionTable) (cpId : String)
    (bootReq : types.BootNotificationRequest) (startReq : types.StartTransactionRequest)
    (stopReq : types.StopTransactionRequest) (mvReq : types.MeterValuesRequest)
    (hb now : Nat) (lastId : Int) (w : Bool) :
    ((OnBootNotification db cpId bootReq hb w now).2 =
      (OnBootNotification db cpId bootReq hb true now).2)
    ∧ ((OnBootNotification db cpId bootReq hb w now).2.2 = none)
    ∧ ((OnStartTransaction txdb cpId startReq lastId w now).2.2 =
      (OnStartTransaction txdb cpId startReq lastId true now).2.2)
    ∧ ((OnStartTransaction txdb cpId startReq lastId w now).2.2.2 = none)
    ∧ ((OnStopTransaction txdb cpId stopReq w now).2.2 =
      (OnStopTransaction txdb cpId stopReq true now).2.2)
    ∧ ((OnStopTransaction txdb cpId stopReq w now).2.2.2 = none)
    ∧ ((OnMeterValues cpId mvReq).2.2 = none) :=
  ⟨rfl, rfl, rfl, rfl, rfl, rfl, rfl⟩

/-- Helper: the StopTransaction UPDATE never changes the list of
transaction ids — it maps rows in place and inserts nothing. -/
theorem stopTransaction_map_ID (db : TransactionTable) (id : Int) (t : Nat) (m : Int)
    (now : Nat) :
    (StopTransaction db id t m now).map (fun r => r.ID) = db.map (fun r => r.ID) := by
  unfold StopTransaction
  exact map_key_map_if (fun row => row.ID == id)
    (fun row => { row with
                  EndTime := some t,
                  MeterStop := some m,
                  Status := "Completed",
                  UpdatedAt := now })
    (fun r => r.ID) (fun a => rfl) db

/-- Claim C4: for an existing transaction, OnStopTransaction (whose store
update is StopTransaction) makes GetTransaction return status Completed
with the request's meterStop and endTime, and a second StopTransaction for
any id creates no new transaction — the list of transaction ids is exactly
the original one after both stops. -/
theorem stopTransaction_completes_and_creates_nothing
    (txdb : TransactionTable) (cpId : String)
    (req req2 : types.StopTransactionRequest) (now now2 : Nat) (w2 : Bool)
    (tx : models.Transaction)
    (h : GetTransaction txdb req.TransactionId = some tx) :
    ((GetTransaction ((OnStopTransaction txdb cpId req true now).1) req.TransactionId).map
        (fun r => (r.Status, r.MeterStop, r.EndTime)) =
      some ("Completed", req.MeterStop, req.Timestamp))
    ∧ ((OnStopTransaction ((OnStopTransaction txdb cpId req true now).1) cpId req2 w2 now2).1.map
        (fun r => r.ID) = txdb.map (fun r => r.ID)) := by
  unfold GetTransaction at h
  obtain ⟨row, hrow, -⟩ := Option.map_eq_some'.mp h
  constructor
  · show (GetTransaction
        (StopTransaction txdb req.TransactionId req.Timestamp req.MeterStop now)
        req.TransactionId).map (fun r => (r.Status, r.MeterStop, r.EndTime)) = _
    unfold GetTransaction StopTransaction
    rw [find?_map_if (fun row => row.ID == req.TransactionId)
          (fun row => { row with
                        EndTime := some req.Timestamp,
                        MeterStop := some req.MeterStop,
                        Status := "Completed",
                        UpdatedAt := now })
          (fun a => rfl) txdb, hrow]
    rfl
  · have hfirst : (OnStopTransaction txdb cpId req true now).1 =
        StopTransaction txdb req.TransactionId req.Timestamp req.MeterStop now := rfl
    cases w2 with
    | false =>
      show ((OnStopTransaction txdb cpId req true now).1).map (fun r => r.ID) =
        txdb.map (fun r => r.ID)
      rw [hfirst, stopTransaction_map_ID]
    | true =>
      show (StopTransaction ((OnStopTransaction txdb cpId req true now).1)
          req2.TransactionId req2.Timestamp req2.MeterStop now2).map (fun r => r.ID) =
        txdb.map (fun r => r.ID)
      rw [stopTransaction_map_ID, hfirst, stopTransaction_map_ID]

/-- Witness for claim C4 at concrete inputs: stopping transaction 7 with
meterStop 500 at time 9 makes GetTransaction report (Completed, 500, 9),
and a second stop leaves the set of transaction ids exactly the original
one. -/
theorem stopTransaction_completes_and_creates_nothing_witness :
    (GetTransaction txdbDemo 7 = some txDemo) ∧
    ((GetTransaction ((OnStopTransaction txdbDemo "CP-1" stopReqDemo true 11).1) 7).map
        (fun r => (r.Status, r.MeterStop, r.EndTime)) = some ("Completed", 500, 9)) ∧
    ((OnStopTransaction ((OnStopTransaction txdbDemo "CP-1" stopReqDemo true 11).1) "CP-1"
        stopReqDemo2 true 12).1.map (fun r => r.ID) = txdbDemo.map (fun r => r.ID)) :=
  ⟨by decide,
   (stopTransaction_completes_and_creates_nothing txdbDemo "CP-1" stopReqDemo stopReqDemo2
      11 12 true txDemo (by decide)).1,
   (stopTransaction_completes_and_creates_nothing txdbDemo "CP-1" stopReqDemo stopReqDemo2
      11 12 true txDemo (by decide)).2⟩

/-- Claim C5: OnMeterValues appends exactly one row per sample in every
sample set — the submitted rows are precisely the spec's
one-row-per-sample list with measurand defaulting to
Energy.Active.Import.Register, unit defaulting to Wh, and value 0.0 for an
unparsable value string — the row count is the total sample count, and the
request is never rejected (the error returned to the device is nil for
every input). -/
theorem OnMeterValues_one_row_per_sample_with_defaults
    (chargePointID : String) (request : types.MeterValuesRequest) :
    ((OnMeterValues chargePointID request).1 =
      request.MeterValue.flatMap (fun meterValue =>
        meterValue.SampledValue.map (specMeterRow chargePointID request meterValue)))
    ∧ ((OnMeterValues chargePointID request).1.length =
      (request.MeterValue.map (fun meterValue => meterValue.SampledValue.length)).sum)
    ∧ ((OnMeterValues chargePointID request).2.2 = none) := by
  refine ⟨onMeterValues_rows chargePointID request, ?_, rfl⟩
  rw [onMeterValues_rows, List.length_flatMap]
  simp only [Function.comp_def, List.length_map]

/-- Claim C6: OnBootNotification returns, for every input, a confirmation
carrying the current server time, the configured heartbeat interval and
Accepted status with a nil error, and (when the write goes through) the
stored record carries the request's vendor, model, serial and firmware,
registrationStatus Accepted, lastHeartbeat now and isConnected true. -/
theorem OnBootNotification_upserts_and_accepts
    (db : ChargePointTable) (chargePointID : String)
    (request : types.BootNotificationRequest) (heartbeatInterval now : Nat) (w : Bool) :
    ((OnBootNotification db chargePointID request heartbeatInterval w now).2.1 =
      { CurrentTime := now, Interval := heartbeatInterval, Status := "Accepted" })
    ∧ ((OnBootNotification db chargePointID request heartbeatInterval w now).2.2 = none)
    ∧ ((GetChargePoint (OnBootNotification db chargePointID request heartbeatInterval true now).1
          chargePointID).map
        (fun row => (row.Vendor, row.Model, row.SerialNumber, row.FirmwareVersion,
          row.RegistrationStatus, row.LastHeartbeat, row.IsConnected)) =
      some (request.ChargePointVendor, request.ChargePointModel,
        request.ChargePointSerialNumber, request.FirmwareVersion, "Accepted", now, true)) := by
  refine ⟨rfl, rfl, ?_⟩
  show (GetChargePoint (SaveChargePoint db _ now) chargePointID).map _ = _
  rw [getChargePoint_saveChargePoint db _ now chargePointID rfl]
  rcases hg : GetChargePoint db chargePointID with _ | row <;>
    simp [upsertRow, withTimestamps]

/-- Claim C7 counterexample: the audit row persisted for a message whose
JSON text is the two-character object text is not that text — the insert
marshals the already-marshaled string again, so the stored payload is the
quoted string literal, not the raw JSON. -/
theorem logMessage_payload_not_verbatim :
    (LogOCPPMessage (logMessage "CP-1" "Request" "BootNotification" "" "\x7b\x7d"
        "Inbound" 0)).Payload ≠ "\x7b\x7d" := by
  decide

/-- Claim C7 as amended: the persisted payload column is not the raw JSON
text of the processed message but its JSON string-literal encoding (the
payload is marshaled twice — once by the logger into the Payload string
field and once more by the insert); the original JSON text is still
recoverable verbatim by decoding that string literal. -/
theorem logMessage_payload_double_encoded
    (chargePointID messageType action requestID payloadJSON direction : String)
    (now : Nat) :
    ((LogOCPPMessage (logMessage chargePointID messageType action requestID payloadJSON
        direction now)).Payload = goMarshalString payloadJSON)
    ∧ (goUnmarshalString
        ((LogOCPPMessage (logMessage chargePointID messageType action requestID payloadJSON
          direction now)).Payload) = some payloadJSON) :=
  ⟨rfl, goUnmarshal_goMarshal payloadJSON⟩

/-- Claim C8 (transport contract modelled from the spec): for a valid
reset type, ResetChargePoint returns a synchronous error — and the
continuation never fires, no send happens — when the target device is not
in the connected directory; when it is connected the call is accepted and
the continuation list is exactly one invocation carrying the device's
confirmation or transport error. -/
theorem ResetChargePoint_offline_error_online_single_callback
    (connectedIDs : List String) (chargePointID resetType : String)
    (deviceOutcome : Except String types.ResetConfirmation)
    (hvalid : resetType = "Hard" ∨ resetType = "Soft") :
    (connectedIDs.contains chargePointID = false →
      ResetChargePoint connectedIDs chargePointID resetType deviceOutcome =
        Except.error "charge point not connected")
    ∧ (connectedIDs.contains chargePointID = true →
      ResetChargePoint connectedIDs chargePointID resetType deviceOutcome =
        Except.ok [deviceOutcome]) := by
  have hvalid' : (resetType = "Hard" ∨ resetType = "Soft") = True := eq_true hvalid
  constructor
  · intro hc
    have hmem : chargePointID ∉ connectedIDs := by simpa using hc
    simp [ResetChargePoint, transportReset, hvalid', hmem]
  · intro hc
    have hmem : chargePointID ∈ connectedIDs := by simpa using hc
    simp [ResetChargePoint, transportReset, hvalid', hmem]

/-- Witness for claim C8 at concrete inputs: a Hard reset of CP-2 fails
synchronously when only CP-1 is connected, and is accepted with exactly
one continuation invocation when CP-2 is connected. -/
theorem ResetChargePoint_offline_error_witness :
    ((["CP-1"] : List String).contains "CP-2" = false) ∧
    (ResetChargePoint ["CP-1"] "CP-2" "Hard" (Except.ok { Status := "Accepted" }) =
      Except.error "charge point not connected") ∧
    ((["CP-2"] : List String).contains "CP-2" = true) ∧
    (ResetChargePoint ["CP-2"] "CP-2" "Hard" (Except.ok { Status := "Accepted" }) =
      Except.ok [Except.ok { Status := "Accepted" }]) :=
  ⟨by decide,
   (ResetChargePoint_offline_error_online_single_callback ["CP-1"] "CP-2" "Hard"
      (Except.ok { Status := "Accepted" }) (Or.inl rfl)).1 (by decide),
   by decide,
   (ResetChargePoint_offline_error_online_single_callback ["CP-2"] "CP-2" "Hard"
      (Except.ok { Status := "Accepted" }) (Or.inl rfl)).2 (by decide)⟩

/-- Claim C9: when the optional transactionId of a MeterValues request is
absent, every row OnMeterValues submits carries transactionId 0 (the Go
zero value) rather than a null association. -/
theorem OnMeterValues_absent_transactionId_persists_zero
    (chargePointID : String) (request : types.MeterValuesRequest)
    (h : request.TransactionId = none) :
    ((OnMeterValues chargePointID request).1.all
      (fun row => row.TransactionID == 0)) = true := by
  rw [onMeterValues_rows]
  simp only [List.all_eq_true, List.mem_flatMap, List.mem_map]
  rintro row ⟨meterValue, hmv, sampledValue, hsv, rfl⟩
  simp [specMeterRow, h]

/-- Witness for claim C9 at a concrete input: the demo request has no
transaction id and its submitted row carries transactionId 0. -/
theorem OnMeterValues_absent_transactionId_persists_zero_witness :
    (mvReqDemo.TransactionId = none) ∧
    (((OnMeterValues "CP-1" mvReqDemo).1.all
      (fun row => row.TransactionID == 0)) = true) :=
  ⟨rfl, OnMeterValues_absent_transactionId_persists_zero "CP-1" mvReqDemo rfl⟩

/-- Claim C10: when the read on a new connection fails for any reason —
also when the record exists and only the read errs, e.g. a timeout —
handleNewChargePoint saves the minimal record, overwriting the stored
vendor, model and registration status with Unknown, Unknown and Pending. -/
theorem handleNewChargePoint_read_failure_overwrites
    (db : ChargePointTable) (cpId : String) (now : Nat) (cp : models.ChargePoint)
    (h : GetChargePoint db cpId = some cp) :
    (GetChargePoint (handleNewChargePoint db cpId true now) cpId).map
      (fun row => (row.Vendor, row.Model, row.RegistrationStatus)) =
      some ("Unknown", "Unknown", "Pending") := by
  unfold handleNewChargePoint
  rw [getChargePoint_saveChargePoint db _ now cpId
        (handleNewChargePointRecord_ID db cpId true now), h]
  simp [upsertRow, withTimestamps, handleNewChargePointRecord]

/-- Witness for claim C10 at concrete inputs: CP-1 is stored with vendor
Acme, the read fails, and the handler's save leaves the stored record with
vendor Unknown, model Unknown and registrationStatus Pending. -/
theorem handleNewChargePoint_read_failure_overwrites_witness :
    (GetChargePoint dbAcme "CP-1" = some cpAcme) ∧
    ((GetChargePoint (handleNewChargePoint dbAcme "CP-1" true 6) "CP-1").map
      (fun row => (row.Vendor, row.Model, row.RegistrationStatus)) =
      some ("Unknown", "Unknown", "Pending")) :=
  ⟨by decide, handleNewChargePoint_read_failure_overwrites dbAcme "CP-1" 6 cpAcme (by decide)⟩
